import Mathlib

/-!
Verification of the vulnerability-management proof of concept
(`snykScan.py` and `jiraTicketCreation.py`).

The two Python modules are shallowly embedded: dictionaries become
association lists over `String`, the ticketing HTTP collaborator becomes a
function from the submitted payload to an HTTP response, and Python
exceptions become `Except` values.  The orchestration loop `main` is
modelled as a function producing the list of console events of a run.
-/

namespace VulnMgmt

/-- The risk-factor value attached to an impacted project: either the
string sentinel `"None identified"` or a dictionary from signal name to
boolean, modelled as an association list (first binding wins on lookup,
matching Python dict semantics under the inserts the code performs). -/
inductive RiskFactors where
  | sentinel
  | dict (entries : List (String × Bool))
deriving DecidableEq, Repr

/-- Python `d.get(k)` followed by a truthiness test: look the key up and
treat a missing key as falsy. -/
def getFlag (entries : List (String × Bool)) (k : String) : Bool :=
  (entries.lookup k).getD false

/-- `PRIORITY_LEVELS` table from `jiraTicketCreation.py`. -/
def PRIORITY_LEVELS : List (String × Nat) :=
  [("Highest", 1), ("High", 2), ("Medium", 3), ("Low", 4)]

/-- `SLA_DAYS` table from `jiraTicketCreation.py`. -/
def SLA_DAYS : List (String × Nat) :=
  [("Highest", 2), ("High", 5), ("Medium", 14), ("Low", 30)]

/-- The score accumulation in `calculate_priority`: +3 for a truthy
`Public-Facing`, +2 for `Deployed`, +1 for `Loaded Package`, +1 for a
truthy `OS Condition`. -/
def priority_score (rf : List (String × Bool)) : Nat :=
  (if getFlag rf "Public-Facing" then 3 else 0)
    + (if getFlag rf "Deployed" then 2 else 0)
    + (if getFlag rf "Loaded Package" then 1 else 0)
    + (if getFlag rf "OS Condition" then 1 else 0)

/-- The threshold chain at the end of `calculate_priority`. -/
def tier_of_score (s : Nat) : String :=
  if s ≥ 5 then "Highest"
  else if s ≥ 3 then "High"
  else if s ≥ 1 then "Medium"
  else "Low"

/-- `calculate_priority` from `jiraTicketCreation.py`: short-circuit on the
sentinel, otherwise score the flags and map through the thresholds. -/
def calculate_priority : RiskFactors → String
  | .sentinel => "Low"
  | .dict rf => tier_of_score (priority_score rf)

/-- Urgency rank of a tier string, from `PRIORITY_LEVELS` (1 = most
urgent).  The default is irrelevant: it is only applied to the four tier
strings. -/
def levelOf (tier : String) : Nat :=
  (PRIORITY_LEVELS.lookup tier).getD 4

/-- Calendar dates, for the `datetime` + `timedelta` arithmetic in
`calculate_due_date`. -/
structure Date where
  year : Nat
  month : Nat
  day : Nat
deriving DecidableEq, Repr

def isLeapYear (y : Nat) : Bool :=
  (y % 4 == 0 && y % 100 != 0) || (y % 400 == 0)

def daysInMonth (y m : Nat) : Nat :=
  if m = 2 then (if isLeapYear y then 29 else 28)
  else if m = 4 ∨ m = 6 ∨ m = 9 ∨ m = 11 then 30
  else 31

def nextDay (d : Date) : Date :=
  if d.day < daysInMonth d.year d.month then ⟨d.year, d.month, d.day + 1⟩
  else if d.month < 12 then ⟨d.year, d.month + 1, 1⟩
  else ⟨d.year + 1, 1, 1⟩

def addDays (d : Date) : Nat → Date
  | 0 => d
  | n + 1 => addDays (nextDay d) n

/-- Zero-padded two-digit rendering, as `strftime` produces for months and
days. -/
def pad2 (n : Nat) : String :=
  if n < 10 then "0" ++ toString n else toString n

/-- `strftime("%Y-%m-%d")`. -/
def formatDate (d : Date) : String :=
  toString d.year ++ "-" ++ pad2 d.month ++ "-" ++ pad2 d.day

/-- The literal `datetime(2025, 4, 2)` pinned in `calculate_due_date`. -/
def current_date : Date := ⟨2025, 4, 2⟩

/-- `calculate_due_date` from `jiraTicketCreation.py`:
`SLA_DAYS.get(priority, 30)` days after the pinned reference date,
rendered `YYYY-MM-DD`. -/
def calculate_due_date (priority : String) : String :=
  formatDate (addDays current_date ((SLA_DAYS.lookup priority).getD 30))

/-- `json.dumps(entries, indent=2)` for the dict variant: one line per
binding, two-space indent.  The exact rendering is not contractual (spec
section 6); what matters here is that it is a deterministic, total
function of the entries. -/
def renderEntries : List (String × Bool) → String
  | [] => ""
  | [(k, v)] => "  \x22" ++ k ++ "\x22: " ++ (if v then "true" else "false")
  | (k, v) :: e :: rest =>
      "  \x22" ++ k ++ "\x22: " ++ (if v then "true" else "false") ++ ",\n"
        ++ renderEntries (e :: rest)

/-- `json.dumps(risk_factors, indent=2)`: a quoted string for the
sentinel, a braced block for a dict. -/
def renderRiskFactors : RiskFactors → String
  | .sentinel => "\x22None identified\x22"
  | .dict [] => "\x7b\x7d"
  | .dict rf => "\x7b\n" ++ renderEntries rf ++ "\n\x7d"

/-- The JIRA payload built in `create_jira_ticket` (the `fields` object:
project key, summary, description, issue type, priority, due date). -/
structure Payload where
  projectKey : String
  summary : String
  description : String
  issuetype : String
  priority : String
  duedate : String
deriving DecidableEq, Repr

/-- Parsed JSON body of the ticketing API's response; `main` reads its
`key` field with `.get("key")`. -/
structure RespJson where
  key : Option String
deriving DecidableEq, Repr

/-- An HTTP response from the ticketing collaborator. -/
structure HttpResponse where
  status_code : Nat
  text : String
  body : RespJson
deriving DecidableEq, Repr

/-- The exceptions `create_jira_ticket` can raise: the `KeyError` of the
unguarded `SLA_DAYS[priority]` lookup in the description, and the
submission `Exception` raised on a non-2xx-success status. -/
inductive JiraError where
  | keyError (missing : String)
  | submissionError (project_name : String) (status : Nat) (text : String)
deriving DecidableEq, Repr

/-- `str(e)` for the exceptions above: Python renders
`KeyError(k)` as the repr of `k`, and the submission failure carries the
message built in `create_jira_ticket`. -/
def errString : JiraError → String
  | .keyError k => "\x27" ++ k ++ "\x27"
  | .submissionError name status text =>
      "Failed to create JIRA ticket for " ++ name ++ ": "
        ++ toString status ++ " - " ++ text

/-- The pure payload-building prefix of `create_jira_ticket`
(lines 58-76): compute priority and due date, build summary and
description, assemble the fields.  `PROJECT_KEY` and `ISSUE_TYPE` come
from `config.py` and are passed as the first two arguments.  Returns
`none` exactly when the unguarded `SLA_DAYS[priority]` lookup in the
description would raise `KeyError`. -/
def composePayload (projectKeyConf issueTypeConf project_name project_id : String)
    (risk_factors : RiskFactors) (cve_id : String) : Option Payload :=
  let priority := calculate_priority risk_factors
  let due_date := calculate_due_date priority
  let summary := "Vulnerability " ++ cve_id ++ " in " ++ project_name
  match SLA_DAYS.lookup priority with
  | none => none
  | some sla =>
      let description :=
        "Application \x27" ++ project_name ++ "\x27 (Project ID: " ++ project_id
          ++ ") is impacted by " ++ cve_id ++ ".\n\n**Risk Factors:** "
          ++ renderRiskFactors risk_factors
          ++ "\n\n**Due Date:** " ++ due_date ++ " (based on " ++ toString sla
          ++ "-day SLA for " ++ priority ++ " priority)"
          ++ "\n\nPlease investigate and remediate this vulnerability."
      some { projectKey := projectKeyConf, summary := summary,
             description := description, issuetype := issueTypeConf,
             priority := priority, duedate := due_date }

/-- `create_jira_ticket` from `jiraTicketCreation.py`: build the payload,
POST it (the collaborator `api` maps the submitted payload to its
response), raise unless the status code is 201 or 200, otherwise return
the parsed response body. -/
def create_jira_ticket (api : Payload → HttpResponse)
    (projectKeyConf issueTypeConf project_name project_id : String)
    (risk_factors : RiskFactors) (cve_id : String) : Except JiraError RespJson :=
  match composePayload projectKeyConf issueTypeConf project_name project_id
      risk_factors cve_id with
  | none => .error (.keyError (calculate_priority risk_factors))
  | some payload =>
      let response := api payload
      if response.status_code = 201 ∨ response.status_code = 200 then
        .ok response.body
      else
        .error (.submissionError project_name response.status_code response.text)

/-- The per-project entry of the `impacted_projects` mapping:
`details["Project ID"]` and `details["Risk Factors"]`. -/
structure ProjectDetails where
  project_id : String
  risk_factors : RiskFactors
deriving DecidableEq, Repr

/-- One console line of a run of `main`. -/
inductive Event where
  | noProjects
  | header (cve_id : String)
  | creating (project_name : String)
  | created (ticket_key : Option String) (priority : String) (due : String)
  | errorReport (msg : String)
deriving DecidableEq, Repr

/-- The `for` loop of `main`.  The `try` in the source wraps the whole
loop, so the first exception ends the loop with a single
`Error: ...` line and the remaining projects are not processed. -/
def mainLoop (api : Payload → HttpResponse) (projectKeyConf issueTypeConf cve_id : String) :
    List (String × ProjectDetails) → List Event
  | [] => []
  | (project_name, details) :: rest =>
      Event.creating project_name ::
        match create_jira_ticket api projectKeyConf issueTypeConf project_name
            details.project_id details.risk_factors cve_id with
        | .error e => [Event.errorReport ("Error: " ++ errString e)]
        | .ok ticket =>
            Event.created ticket.key (calculate_priority details.risk_factors)
                (calculate_due_date (calculate_priority details.risk_factors))
              :: mainLoop api projectKeyConf issueTypeConf cve_id rest

/-- `main` from `jiraTicketCreation.py`, as the list of console events of
a run: empty input short-circuits with an informational line; otherwise
the header line followed by the loop. -/
def mainRun (api : Payload → HttpResponse) (projectKeyConf issueTypeConf : String)
    (impacted_projects : List (String × ProjectDetails)) (cve_id : String) : List Event :=
  if impacted_projects.isEmpty then [Event.noProjects]
  else Event.header cve_id :: mainLoop api projectKeyConf issueTypeConf cve_id impacted_projects

/-- A Snyk issue, reduced to the attributes the code reads: the CVE
identifier list (`identifiers.get("CVE", [])`, absent list modelled as
`[]`) and the risk characteristics.  `os_condition_match` keeps the
Python `None` / `True` / `False` trichotomy. -/
structure Issue where
  cves : List String
  is_deployed : Bool
  is_public_facing : Bool
  is_loaded_package : Bool
  os_condition_match : Option Bool
deriving DecidableEq, Repr

/-- A Snyk project: `id` and `attributes.name`. -/
structure Project where
  id : String
  name : String
deriving DecidableEq, Repr

/-- `extract_risk_factors` from `snykScan.py`: insert `Deployed`,
`Public-Facing`, `Loaded Package` when truthy, and `OS Condition` with
its actual boolean whenever `os_condition_match is not None`, in the
source's insertion order. -/
def extract_risk_factors (issue : Issue) : List (String × Bool) :=
  (if issue.is_deployed then [("Deployed", true)] else [])
    ++ (if issue.is_public_facing then [("Public-Facing", true)] else [])
    ++ (if issue.is_loaded_package then [("Loaded Package", true)] else [])
    ++ (match issue.os_condition_match with
        | none => []
        | some b => [("OS Condition", b)])

/-- `risk_factors if risk_factors else "None identified"`: an empty dict
is falsy and becomes the sentinel. -/
def riskFactorsOrSentinel (rf : List (String × Bool)) : RiskFactors :=
  if rf.isEmpty then .sentinel else .dict rf

/-- Python dict assignment `d[k] = v` on an association list: overwrite
in place if the key exists, else append. -/
def dictInsert {α : Type} (k : String) (v : α) :
    List (String × α) → List (String × α)
  | [] => [(k, v)]
  | (k2, v2) :: rest =>
      if k2 = k then (k, v) :: rest else (k2, v2) :: dictInsert k v rest

/-- One iteration of the outer loop of `find_projects_by_cve`: scan the
project's issues for the first whose CVE list contains the target
(`break` after the first hit is `List.find?`); on a hit, record the
project under its name. -/
def fpStep (cve_id : String) (issuesOf : String → List Issue)
    (acc : List (String × ProjectDetails)) (project : Project) :
    List (String × ProjectDetails) :=
  match (issuesOf project.id).find? (fun issue => decide (cve_id ∈ issue.cves)) with
  | none => acc
  | some issue =>
      dictInsert project.name
        ⟨project.id, riskFactorsOrSentinel (extract_risk_factors issue)⟩ acc

/-- `find_projects_by_cve` from `snykScan.py`, with the two paginated
fetches abstracted into the project list and the `issuesOf` map. -/
def find_projects_by_cve (cve_id : String) (issuesOf : String → List Issue)
    (projects : List Project) : List (String × ProjectDetails) :=
  projects.foldl (fpStep cve_id issuesOf) []

/-- Priority computation as the specification words it (spec section 4.1):
sum the weighted contributions of the recognized signals that are
present/true, then map the score through the highest-first thresholds;
the sentinel short-circuits to `Low`. -/
def spec_weights : List (String × Nat) :=
  [("Public-Facing", 3), ("Deployed", 2), ("Loaded Package", 1), ("OS Condition", 1)]

/-- The spec-side rewording of the priority computation, for comparison
with `calculate_priority` (which is translated from the source). -/
def priority_spec : RiskFactors → String
  | .sentinel => "Low"
  | .dict rf =>
      let s := (spec_weights.map (fun kw => if getFlag rf kw.1 then kw.2 else 0)).sum
      if s ≥ 5 then "Highest"
      else if s ≥ 3 then "High"
      else if s ≥ 1 then "Medium"
      else "Low"

/-- A concrete payload to instantiate hypothesis-bearing theorems with. -/
def samplePayload : Payload :=
  (composePayload "VULN" "Bug" "A" "id-a" RiskFactors.sentinel "CVE-1").getD
    ⟨"", "", "", "", "", ""⟩

/-- Helper: `calculate_priority` only ever produces the four tier
strings. -/
theorem calculate_priority_cases (rf : RiskFactors) :
    calculate_priority rf = "Highest" ∨ calculate_priority rf = "High"
      ∨ calculate_priority rf = "Medium" ∨ calculate_priority rf = "Low" := by
  cases rf with
  | sentinel => simp [calculate_priority]
  | dict l =>
      simp only [calculate_priority, tier_of_score]
      split_ifs <;> simp

/-- Claim C2: `calculate_priority` returns `Low` on the sentinel and
otherwise sums +3 for `Public-Facing`, +2 for `Deployed`, +1 for
`Loaded Package`, +1 for `OS Condition`, mapping the score through the
thresholds 5/3/1; missing keys contribute 0 and every input produces a
tier.  Stated as agreement with the spec-side rewording
`priority_spec`. -/
theorem calculate_priority_matches_spec (rf : RiskFactors) :
    calculate_priority rf = priority_spec rf := by
  cases rf with
  | sentinel => rfl
  | dict l =>
      cases hPF : getFlag l "Public-Facing" <;>
        cases hD : getFlag l "Deployed" <;>
          cases hLP : getFlag l "Loaded Package" <;>
            cases hOS : getFlag l "OS Condition" <;>
              simp [calculate_priority, priority_spec, tier_of_score,
                priority_score, spec_weights, hPF, hD, hLP, hOS]

/-- Claim C3: each tier's due date is the pinned reference date plus its
`SLA_DAYS` entry rendered `YYYY-MM-DD` (concretely 2025-04-04 /
2025-04-07 / 2025-04-16 / 2025-05-02), the day-counts are monotonically
non-decreasing from Highest to Low, and any string outside the four-tier
enumeration falls back to the 30-day Low SLA. -/
theorem calculate_due_date_props :
    (∀ t, calculate_due_date t
        = formatDate (addDays current_date ((SLA_DAYS.lookup t).getD 30)))
    ∧ (calculate_due_date "Highest" = "2025-04-04"
        ∧ calculate_due_date "High" = "2025-04-07"
        ∧ calculate_due_date "Medium" = "2025-04-16"
        ∧ calculate_due_date "Low" = "2025-05-02")
    ∧ ((SLA_DAYS.lookup "Highest").getD 30 ≤ (SLA_DAYS.lookup "High").getD 30
        ∧ (SLA_DAYS.lookup "High").getD 30 ≤ (SLA_DAYS.lookup "Medium").getD 30
        ∧ (SLA_DAYS.lookup "Medium").getD 30 ≤ (SLA_DAYS.lookup "Low").getD 30)
    ∧ (∀ s, s ∉ ["Highest", "High", "Medium", "Low"] →
        calculate_due_date s = calculate_due_date "Low") := by
  refine ⟨fun t => rfl, ⟨by decide, by decide, by decide, by decide⟩,
    ⟨by decide, by decide, by decide⟩, fun s hs => ?_⟩
  simp only [List.mem_cons, List.not_mem_nil, or_false, not_or] at hs
  obtain ⟨h1, h2, h3, h4⟩ := hs
  have e1 : (s == "Highest") = false := beq_eq_false_iff_ne.mpr h1
  have e2 : (s == "High") = false := beq_eq_false_iff_ne.mpr h2
  have e3 : (s == "Medium") = false := beq_eq_false_iff_ne.mpr h3
  have e4 : (s == "Low") = false := beq_eq_false_iff_ne.mpr h4
  simp [calculate_due_date, SLA_DAYS, List.lookup, e1, e2, e3, e4]

/-- Witness for C3: an out-of-enumeration tier string gets the Low SLA
due date. -/
theorem calculate_due_date_fallback_witness :
    calculate_due_date "Critical" = calculate_due_date "Low" :=
  calculate_due_date_props.2.2.2 "Critical" (by decide)

/-- Claim C9: every output of `calculate_priority` is one of the four
tier strings, so the unguarded `SLA_DAYS[priority]` lookup in the ticket
description never fails and `composePayload` always yields a payload. -/
theorem calculate_priority_in_enum_sla_total (pk it n i c : String) (rf : RiskFactors) :
    (SLA_DAYS.lookup (calculate_priority rf)).isSome = true
    ∧ (composePayload pk it n i rf c).isSome = true := by
  rcases calculate_priority_cases rf with h | h | h | h <;>
    simp [composePayload, SLA_DAYS, List.lookup, h]

/-- Claim C10: any dictionary in which none of the four recognized
signals is present with a truthy value scores 0 and yields `Low`, the
same tier as the sentinel; in particular the collector's
`{OS Condition: false}` output (produced when `os_condition_match` is
`False`) yields `Low`. -/
theorem no_truthy_signals_low (l : List (String × Bool))
    (hPF : getFlag l "Public-Facing" = false) (hD : getFlag l "Deployed" = false)
    (hLP : getFlag l "Loaded Package" = false) (hOS : getFlag l "OS Condition" = false) :
    calculate_priority (.dict l) = "Low"
    ∧ calculate_priority (.dict l) = calculate_priority .sentinel
    ∧ calculate_priority
        (riskFactorsOrSentinel (extract_risk_factors
          ⟨[], false, false, false, some false⟩)) = "Low" := by
  refine ⟨?_, ?_, by decide⟩ <;>
    simp [calculate_priority, priority_score, tier_of_score, hPF, hD, hLP, hOS]

/-- Witness for C10 at the collector's `{OS Condition: false}` dict. -/
theorem no_truthy_signals_low_witness :
    calculate_priority (.dict [("OS Condition", false)]) = "Low" :=
  (no_truthy_signals_low [("OS Condition", false)]
    (by decide) (by decide) (by decide) (by decide)).1

/-- Claim C7: on an empty impacted-projects mapping, `main` emits only
the informational line and its outcome does not depend on the ticketing
collaborator at all (no submission is performed). -/
theorem main_empty_noop (api api2 : Payload → HttpResponse) (pk it cve : String) :
    mainRun api pk it [] cve = [Event.noProjects]
    ∧ mainRun api pk it [] cve = mainRun api2 pk it [] cve :=
  ⟨rfl, rfl⟩

/-- The ticketing collaborator of spec Scenario 5: status 500 for
project A's payload, status 200 with ticket key `PROJ-1` for any
other. -/
def apiScenario5 : Payload → HttpResponse := fun p =>
  if p.summary = "Vulnerability CVE-1 in A" then ⟨500, "boom", ⟨none⟩⟩
  else ⟨200, "ok", ⟨some "PROJ-1"⟩⟩

/-- Claim C1 (divergence): with two projects where A's submission fails
with status 500 and B's would succeed with key `PROJ-1`, the run stops at
A's error: B is never attempted, no ticket-created line for B appears,
even though submitting B's ticket would succeed.  The `try` in `main`
wraps the whole loop, so the spec's per-project failure isolation does
not hold. -/
theorem main_submission_failure_aborts_loop :
    mainRun apiScenario5 "VULN" "Bug"
        [("A", ⟨"id-a", .sentinel⟩), ("B", ⟨"id-b", .sentinel⟩)] "CVE-1"
      = [Event.header "CVE-1", Event.creating "A",
         Event.errorReport "Error: Failed to create JIRA ticket for A: 500 - boom"]
    ∧ create_jira_ticket apiScenario5 "VULN" "Bug" "B" "id-b"
        RiskFactors.sentinel "CVE-1" = .ok ⟨some "PROJ-1"⟩ := by
  constructor <;> rfl

/-- Claim C8: payload composition is deterministic and idempotent — two
compositions from the same project name, project id, risk factors and
CVE id (under the fixed reference date) produce identical payloads, and
in particular identical priority and due date. -/
theorem compose_ticket_deterministic (pk it n i c : String) (rf : RiskFactors)
    (p q : Payload)
    (hp : composePayload pk it n i rf c = some p)
    (hq : composePayload pk it n i rf c = some q) :
    p = q ∧ p.priority = q.priority ∧ p.duedate = q.duedate := by
  have h := hp.symm.trans hq
  injection h with h
  exact ⟨h, by rw [h], by rw [h]⟩

/-- Witness for C8 at a concrete composition. -/
theorem compose_ticket_deterministic_witness :
    samplePayload = samplePayload
    ∧ samplePayload.priority = samplePayload.priority
    ∧ samplePayload.duedate = samplePayload.duedate :=
  compose_ticket_deterministic "VULN" "Bug" "A" "id-a" "CVE-1"
    RiskFactors.sentinel samplePayload samplePayload rfl rfl

/-- Helper: looking up the inserted key finds the inserted value. -/
theorem dictInsert_lookup_self {α : Type} (k : String) (v : α)
    (l : List (String × α)) : (dictInsert k v l).lookup k = some v := by
  induction l with
  | nil => simp [dictInsert, List.lookup]
  | cons hd tl ih =>
      obtain ⟨k2, v2⟩ := hd
      by_cases h : k2 = k
      · subst h
        simp [dictInsert, List.lookup]
      · have hb : (k == k2) = false := beq_eq_false_iff_ne.mpr (Ne.symm h)
        simp [dictInsert, h, List.lookup, hb, ih]

/-- Helper: inserting one key does not change the lookup of another. -/
theorem dictInsert_lookup_ne {α : Type} (k k2 : String) (v : α)
    (l : List (String × α)) (h : k2 ≠ k) :
    (dictInsert k v l).lookup k2 = l.lookup k2 := by
  have hb : (k2 == k) = false := beq_eq_false_iff_ne.mpr h
  induction l with
  | nil => simp [dictInsert, List.lookup, hb]
  | cons hd tl ih =>
      obtain ⟨k3, v3⟩ := hd
      by_cases hk : k3 = k
      · subst hk
        simp [dictInsert, List.lookup, hb]
      · simp [dictInsert, hk, List.lookup, ih]

/-- Claim C4: setting a recognized signal to true (Python `d[k] = True`)
in a dictionary where it was absent or falsy never decreases the urgency
of the resulting tier (`levelOf` ranks `Highest` as 1 through `Low` as 4,
so lower is more urgent). -/
theorem add_signal_monotone (l : List (String × Bool)) (k : String)
    (hk : k ∈ ["Public-Facing", "Deployed", "Loaded Package", "OS Condition"])
    (hnot : getFlag l k = false) :
    levelOf (calculate_priority (.dict (dictInsert k true l)))
      ≤ levelOf (calculate_priority (.dict l)) := by
  simp only [List.mem_cons, List.not_mem_nil, or_false] at hk
  have hself : getFlag (dictInsert k true l) k = true := by
    simp [getFlag, dictInsert_lookup_self]
  have hne : ∀ k2, k2 ≠ k → getFlag (dictInsert k true l) k2 = getFlag l k2 := by
    intro k2 h2
    simp [getFlag, dictInsert_lookup_ne k k2 true l h2]
  rcases hk with rfl | rfl | rfl | rfl
  · have h2 := hne "Deployed" (by decide)
    have h3 := hne "Loaded Package" (by decide)
    have h4 := hne "OS Condition" (by decide)
    cases hD : getFlag l "Deployed" <;>
      cases hLP : getFlag l "Loaded Package" <;>
        cases hOS : getFlag l "OS Condition" <;>
          · simp only [calculate_priority, priority_score, hself, hnot, h2, h3, h4,
              hD, hLP, hOS]
            decide
  · have h2 := hne "Public-Facing" (by decide)
    have h3 := hne "Loaded Package" (by decide)
    have h4 := hne "OS Condition" (by decide)
    cases hPF : getFlag l "Public-Facing" <;>
      cases hLP : getFlag l "Loaded Package" <;>
        cases hOS : getFlag l "OS Condition" <;>
          · simp only [calculate_priority, priority_score, hself, hnot, h2, h3, h4,
              hPF, hLP, hOS]
            decide
  · have h2 := hne "Public-Facing" (by decide)
    have h3 := hne "Deployed" (by decide)
    have h4 := hne "OS Condition" (by decide)
    cases hPF : getFlag l "Public-Facing" <;>
      cases hD : getFlag l "Deployed" <;>
        cases hOS : getFlag l "OS Condition" <;>
          · simp only [calculate_priority, priority_score, hself, hnot, h2, h3, h4,
              hPF, hD, hOS]
            decide
  · have h2 := hne "Public-Facing" (by decide)
    have h3 := hne "Deployed" (by decide)
    have h4 := hne "Loaded Package" (by decide)
    cases hPF : getFlag l "Public-Facing" <;>
      cases hD : getFlag l "Deployed" <;>
        cases hLP : getFlag l "Loaded Package" <;>
          · simp only [calculate_priority, priority_score, hself, hnot, h2, h3, h4,
              hPF, hD, hLP]
            decide

/-- Witness for C4: adding `Public-Facing` to `{Deployed: true}` does not
decrease urgency. -/
theorem add_signal_monotone_witness :
    levelOf (calculate_priority
        (.dict (dictInsert "Public-Facing" true [("Deployed", true)])))
      ≤ levelOf (calculate_priority (.dict [("Deployed", true)])) :=
  add_signal_monotone [("Deployed", true)] "Public-Facing" (by decide) (by decide)

/-- Claim C6: `create_jira_ticket` returns the parsed response body
exactly when the ticketing API answers 200 or 201 on the composed
payload; on any other status it raises a submission error carrying that
status and the response message. -/
theorem create_jira_ticket_status_iff (api : Payload → HttpResponse)
    (pk it n i c : String) (rf : RiskFactors) (pl : Payload)
    (hpl : composePayload pk it n i rf c = some pl) :
    ((api pl).status_code = 200 ∨ (api pl).status_code = 201 →
        create_jira_ticket api pk it n i rf c = .ok (api pl).body)
    ∧ (¬((api pl).status_code = 200 ∨ (api pl).status_code = 201) →
        create_jira_ticket api pk it n i rf c
          = .error (.submissionError n (api pl).status_code (api pl).text)) := by
  unfold create_jira_ticket
  rw [hpl]
  dsimp only
  constructor
  · intro h
    rw [if_pos (Or.symm h)]
  · intro h
    rw [if_neg (fun hc => h (Or.symm hc))]

/-- Helper: projects whose name differs from `nm` never touch the entry
for `nm` in the accumulated mapping. -/
theorem foldl_fpStep_skip (cve : String) (issuesOf : String → List Issue)
    (nm : String) :
    ∀ (l : List Project), (∀ q ∈ l, q.name ≠ nm) →
      ∀ acc, (l.foldl (fpStep cve issuesOf) acc).lookup nm = acc.lookup nm := by
  intro l
  induction l with
  | nil => intro _ acc; rfl
  | cons hd tl ih =>
      intro h acc
      have hhd : hd.name ≠ nm := h hd (List.mem_cons_self hd tl)
      have htl : ∀ q ∈ tl, q.name ≠ nm := fun q hq => h q (List.mem_cons_of_mem hd hq)
      rw [List.foldl_cons, ih htl]
      unfold fpStep
      cases hfind : (issuesOf hd.id).find? (fun issue => decide (cve ∈ issue.cves)) with
      | none => rfl
      | some issue => exact dictInsert_lookup_ne hd.name nm _ acc (Ne.symm hhd)

/-- Helper: when some issue of project `p` matches, the accumulated
mapping ends up holding the details extracted from the first match. -/
theorem foldl_fpStep_some (cve : String) (issuesOf : String → List Issue)
    (p : Project) (issue : Issue) :
    ∀ (l : List Project), (l.map Project.name).Nodup → p ∈ l →
      (issuesOf p.id).find? (fun iss => decide (cve ∈ iss.cves)) = some issue →
      ∀ acc, (l.foldl (fpStep cve issuesOf) acc).lookup p.name
        = some ⟨p.id, riskFactorsOrSentinel (extract_risk_factors issue)⟩ := by
  intro l
  induction l with
  | nil => intro _ hp; exact absurd hp (List.not_mem_nil p)
  | cons hd tl ih =>
      intro hnd hp hfind acc
      rw [List.map_cons, List.nodup_cons] at hnd
      rcases List.mem_cons.mp hp with rfl | hmem
      · have htl : ∀ q ∈ tl, q.name ≠ p.name := by
          intro q hq hqe
          exact hnd.1 (hqe ▸ List.mem_map_of_mem Project.name hq)
        rw [List.foldl_cons, foldl_fpStep_skip cve issuesOf p.name tl htl]
        unfold fpStep
        rw [hfind]
        exact dictInsert_lookup_self p.name _ acc
      · rw [List.foldl_cons]
        exact ih hnd.2 hmem hfind _

/-- Helper: when no issue of project `p` matches, the accumulated
mapping's entry for `p.name` is whatever the initial accumulator held. -/
theorem foldl_fpStep_none (cve : String) (issuesOf : String → List Issue)
    (p : Project) :
    ∀ (l : List Project), (l.map Project.name).Nodup → p ∈ l →
      (issuesOf p.id).find? (fun iss => decide (cve ∈ iss.cves)) = none →
      ∀ acc, (l.foldl (fpStep cve issuesOf) acc).lookup p.name
        = acc.lookup p.name := by
  intro l
  induction l with
  | nil => intro _ hp; exact absurd hp (List.not_mem_nil p)
  | cons hd tl ih =>
      intro hnd hp hfind acc
      rw [List.map_cons, List.nodup_cons] at hnd
      rcases List.mem_cons.mp hp with rfl | hmem
      · have htl : ∀ q ∈ tl, q.name ≠ p.name := by
          intro q hq hqe
          exact hnd.1 (hqe ▸ List.mem_map_of_mem Project.name hq)
        rw [List.foldl_cons, foldl_fpStep_skip cve issuesOf p.name tl htl]
        unfold fpStep
        rw [hfind]
      · have hne : hd.name ≠ p.name := by
          intro he
          exact hnd.1 (he ▸ List.mem_map_of_mem Project.name hmem)
        rw [List.foldl_cons, ih hnd.2 hmem hfind _]
        unfold fpStep
        cases hf2 : (issuesOf hd.id).find? (fun iss => decide (cve ∈ iss.cves)) with
        | none => rfl
        | some iss2 => exact dictInsert_lookup_ne hd.name p.name _ acc (Ne.symm hne)

/-- Claim C5: under the spec's invariant that project names are unique
within a run, the mapping produced by `find_projects_by_cve` holds, for
each input project, exactly the details extracted from the first of its
issues whose CVE list contains the target — and no entry at all when no
issue matches. -/
theorem find_projects_by_cve_first_match (cve : String)
    (issuesOf : String → List Issue) (projects : List Project)
    (hnd : (projects.map Project.name).Nodup) (p : Project) (hp : p ∈ projects) :
    (find_projects_by_cve cve issuesOf projects).lookup p.name
      = ((issuesOf p.id).find? (fun issue => decide (cve ∈ issue.cves))).map
          (fun issue =>
            (⟨p.id, riskFactorsOrSentinel (extract_risk_factors issue)⟩ :
              ProjectDetails)) := by
  unfold find_projects_by_cve
  cases hfind : (issuesOf p.id).find? (fun issue => decide (cve ∈ issue.cves)) with
  | none =>
      rw [foldl_fpStep_none cve issuesOf p projects hnd hp hfind []]
      rfl
  | some issue =>
      rw [foldl_fpStep_some cve issuesOf p issue projects hnd hp hfind []]
      rfl

/-- Witness for C5: one project with one matching deployed issue. -/
theorem find_projects_by_cve_first_match_witness :
    (find_projects_by_cve "CVE-1" (fun _ => [⟨["CVE-1"], true, false, false, none⟩])
        [⟨"id-1", "Proj-A"⟩]).lookup "Proj-A"
      = some ⟨"id-1", RiskFactors.dict [("Deployed", true)]⟩ :=
  find_projects_by_cve_first_match "CVE-1"
    (fun _ => [⟨["CVE-1"], true, false, false, none⟩])
    [⟨"id-1", "Proj-A"⟩] (by decide) ⟨"id-1", "Proj-A"⟩ (by decide)

/-- Witness for C6: a 200 response yields the parsed body. -/
theorem create_jira_ticket_status_iff_witness :
    create_jira_ticket (fun _ => ⟨200, "ok", ⟨some "PROJ-1"⟩⟩) "VULN" "Bug"
        "A" "id-a" RiskFactors.sentinel "CVE-1" = .ok ⟨some "PROJ-1"⟩ :=
  (create_jira_ticket_status_iff (fun _ => ⟨200, "ok", ⟨some "PROJ-1"⟩⟩)
      "VULN" "Bug" "A" "id-a" "CVE-1" RiskFactors.sentinel samplePayload rfl).1
    (Or.inl rfl)

end VulnMgmt
